import Mathlib

/-!
Shallow embedding of the Aggregate-Preferred-Node pipeline.

The repository contains three variants of the same program:
* `SubscriptionGenerator` in `node_selector.py` (suffix `_SG` below),
* `NodeSelector` v1, the first script in the unnamed source file (suffix `_v1`),
* `NodeSelector` v2, the second script in the unnamed source file (suffix `_v2`).

Strings are modelled as `List Char`; Python floats as `ℚ`; network calls as
explicit outcome values fed to the embedded functions.
-/

namespace AggregatePreferredNode

/-- Characters treated as whitespace by Python `str.strip` (ASCII subset). -/
def isPySpace (c : Char) : Bool :=
  c == ' ' || c == '\t' || c == '\n' || c == '\r' || c == '\x0b' || c == '\x0c'

/-- Python `str.strip`: remove leading and trailing whitespace. -/
def pyStrip (l : List Char) : List Char :=
  ((l.dropWhile isPySpace).reverse.dropWhile isPySpace).reverse

/-- Characters of the regex class `[A-Za-z0-9+/=]` used by the base64-payload grammars. -/
def isB64Char (c : Char) : Bool :=
  c.isAlpha || c.isDigit || c == '+' || c == '/' || c == '='

/-- Strip the literal `lit` from the front of `s`; `some rest` iff `s = lit ++ rest`. -/
def dropLit : List Char → List Char → Option (List Char)
  | [], s => some s
  | _ :: _, [] => none
  | p :: ps, c :: cs => if p = c then dropLit ps cs else none

/-- Python substring containment (`needle in hay`). -/
def containsSub (needle : List Char) : List Char → Bool
  | [] => (dropLit needle []).isSome
  | c :: cs => (dropLit needle (c :: cs)).isSome || containsSub needle cs

/-- Regex `^pre([A-Za-z0-9+/=]+)` : literal head, then a nonempty greedy
base64 run as the single capture group. -/
def matchB64 (pre s : List Char) : Option (List (List Char)) :=
  match dropLit pre s with
  | none => none
  | some rest =>
      let cap := rest.takeWhile isB64Char
      if cap = [] then none else some [cap]

/-- Regex `^pre([^@]+)@([^:]+):(\d+)` (the trojan / vless grammar): the first
group runs to the first `@`, the second to the first `:` after it, then at
least one digit. -/
def matchUserHostPort (pre s : List Char) : Option (List (List Char)) :=
  match dropLit pre s with
  | none => none
  | some rest =>
      let user := rest.takeWhile (fun c => c != '@')
      if user = [] then none else
      match rest.drop user.length with
      | '@' :: afterAt =>
          let host := afterAt.takeWhile (fun c => c != ':')
          if host = [] then none else
          match afterAt.drop host.length with
          | ':' :: afterColon =>
              let port := afterColon.takeWhile Char.isDigit
              if port = [] then none else some [user, host, port]
          | _ => none
      | _ => none

/-- Regex `^pre([^:]+):(\d+)` (the http / socks5 grammar). -/
def matchProtoHostPort (pre s : List Char) : Option (List (List Char)) :=
  match dropLit pre s with
  | none => none
  | some rest =>
      let host := rest.takeWhile (fun c => c != ':')
      if host = [] then none else
      match rest.drop host.length with
      | ':' :: afterColon =>
          let port := afterColon.takeWhile Char.isDigit
          if port = [] then none else some [host, port]
      | _ => none

/-- Regex `^([^:]+):(\d+)$` (the bare host:port grammar; anchored at the end). -/
def matchBareHostPort (s : List Char) : Option (List (List Char)) :=
  let host := s.takeWhile (fun c => c != ':')
  if host = [] then none else
  match s.drop host.length with
  | ':' :: afterColon =>
      if afterColon = [] then none
      else if afterColon.all Char.isDigit then some [host, afterColon]
      else none
  | _ => none

/-- The protocol tags of the parser grammars. -/
inductive Protocol where
  | ssr | vmess | trojan | vless | ss | http | socks5 | hostPort
deriving DecidableEq, Repr

/-- The shapes of the regexes appearing in `parse_node_line`. -/
inductive PatKind where
  | b64 : List Char → PatKind
  | userHostPort : List Char → PatKind
  | protoHostPort : List Char → PatKind
  | bareHostPort : PatKind
deriving DecidableEq, Repr

/-- Run one pattern against an (already stripped) line. -/
def runPat : PatKind → List Char → Option (List (List Char))
  | PatKind.b64 pre, s => matchB64 pre s
  | PatKind.userHostPort pre, s => matchUserHostPort pre s
  | PatKind.protoHostPort pre, s => matchProtoHostPort pre s
  | PatKind.bareHostPort, s => matchBareHostPort s

/-- Provenance tag attached to a descriptor by `load_all_nodes` /
`parse_subscription_content`. -/
inductive Source where
  | localFile | subscription
deriving DecidableEq, Repr

/-- A parsed node descriptor: the dict
`{'original': line, 'type': t, 'parts': groups}` returned by
`parse_node_line`, plus the `source` key added later (absent at parse time). -/
structure Node where
  original : List Char
  type : Protocol
  parts : List (List Char)
  source : Option Source
deriving DecidableEq, Repr

/-- The pattern table of `SubscriptionGenerator.parse_node_line`
(`node_selector.py`): ssr, vmess, trojan, vless, ss. -/
def patterns_SG : List (Protocol × PatKind) :=
  [(Protocol.ssr, PatKind.b64 "ssr://".data),
   (Protocol.vmess, PatKind.b64 "vmess://".data),
   (Protocol.trojan, PatKind.userHostPort "trojan://".data),
   (Protocol.vless, PatKind.userHostPort "vless://".data),
   (Protocol.ss, PatKind.b64 "ss://".data)]

/-- The pattern table of `NodeSelector.parse_node_line` in the v1 script:
ssr, vmess, trojan, ss, http, socks5, host-port (no vless). -/
def patterns_v1 : List (Protocol × PatKind) :=
  [(Protocol.ssr, PatKind.b64 "ssr://".data),
   (Protocol.vmess, PatKind.b64 "vmess://".data),
   (Protocol.trojan, PatKind.userHostPort "trojan://".data),
   (Protocol.ss, PatKind.b64 "ss://".data),
   (Protocol.http, PatKind.protoHostPort "http://".data),
   (Protocol.socks5, PatKind.protoHostPort "socks5://".data),
   (Protocol.hostPort, PatKind.bareHostPort)]

/-- The pattern table of `NodeSelector.parse_node_line` in the v2 script:
ssr, vmess, trojan, vless, ss, http, socks5, host-port. -/
def patterns_v2 : List (Protocol × PatKind) :=
  [(Protocol.ssr, PatKind.b64 "ssr://".data),
   (Protocol.vmess, PatKind.b64 "vmess://".data),
   (Protocol.trojan, PatKind.userHostPort "trojan://".data),
   (Protocol.vless, PatKind.userHostPort "vless://".data),
   (Protocol.ss, PatKind.b64 "ss://".data),
   (Protocol.http, PatKind.protoHostPort "http://".data),
   (Protocol.socks5, PatKind.protoHostPort "socks5://".data),
   (Protocol.hostPort, PatKind.bareHostPort)]

/-- Modelled from the spec: the priority order stated in the spec for the
descriptor parser — ssr, vmess, trojan, vless, ss, http, socks5, host:port. -/
def claimedPatterns : List (Protocol × PatKind) :=
  [(Protocol.ssr, PatKind.b64 "ssr://".data),
   (Protocol.vmess, PatKind.b64 "vmess://".data),
   (Protocol.trojan, PatKind.userHostPort "trojan://".data),
   (Protocol.vless, PatKind.userHostPort "vless://".data),
   (Protocol.ss, PatKind.b64 "ss://".data),
   (Protocol.http, PatKind.protoHostPort "http://".data),
   (Protocol.socks5, PatKind.protoHostPort "socks5://".data),
   (Protocol.hostPort, PatKind.bareHostPort)]

/-- The `for pattern in patterns` loop body of `parse_node_line`: return the
descriptor of the first pattern whose regex matches. -/
def firstMatch : List (Protocol × PatKind) → List Char → Option Node
  | [], _ => none
  | p :: ps, line =>
      match runPat p.2 line with
      | some g => some (Node.mk line p.1 g none)
      | none => firstMatch ps line

/-- `SubscriptionGenerator.parse_node_line`. -/
def parse_node_line_SG (line : List Char) : Option Node :=
  firstMatch patterns_SG (pyStrip line)

/-- `NodeSelector.parse_node_line` (v1 script). -/
def parse_node_line_v1 (line : List Char) : Option Node :=
  firstMatch patterns_v1 (pyStrip line)

/-- `NodeSelector.parse_node_line` (v2 script). -/
def parse_node_line_v2 (line : List Char) : Option Node :=
  firstMatch patterns_v2 (pyStrip line)

/-- The protocol markers checked by `parse_subscription_content`
(`any(proto in line for proto in [...])`). -/
def protoMarkers : List (List Char) :=
  ["ss://".data, "ssr://".data, "vmess://".data, "trojan://".data, "vless://".data]

/-- One iteration of the `parse_subscription_content` loop: strip the line,
skip blanks and comments, require a protocol marker substring, then parse and
tag the node with source `subscription`. -/
def subLineNode (parse : List Char → Option Node) (line : List Char) : Option Node :=
  let l := pyStrip line
  if l = [] then none
  else if l.head? = some '#' then none
  else if protoMarkers.any (fun m => containsSub m l) then
    match parse l with
    | some n => some (Node.mk n.original n.type n.parts (some Source.subscription))
    | none => none
  else none

/-- `SubscriptionGenerator.parse_subscription_content`. -/
def parse_subscription_content_SG (content : List Char) : List Node :=
  (List.splitOn '\n' content).filterMap (subLineNode parse_node_line_SG)

/-- `NodeSelector.parse_subscription_content` (v2 script). -/
def parse_subscription_content_v2 (content : List Char) : List Node :=
  (List.splitOn '\n' content).filterMap (subLineNode parse_node_line_v2)

/-- The deduplication loop of `load_all_nodes`: keep a node iff its
`original` line has not been seen before. -/
def dedupNodes : List (List Char) → List Node → List Node
  | _, [] => []
  | seen, n :: rest =>
      if n.original ∈ seen then dedupNodes seen rest
      else n :: dedupNodes (n.original :: seen) rest

/-- Deduplication keyed by the raw line, starting from an empty seen-set,
exactly as in `load_all_nodes`. -/
def dedup_by_original (l : List Node) : List Node := dedupNodes [] l

/-- Round-half-to-even to an integer, the behaviour of Python `round`. -/
def roundHalfEven (q : ℚ) : ℤ :=
  if q - ⌊q⌋ < 1/2 then ⌊q⌋
  else if 1/2 < q - ⌊q⌋ then ⌊q⌋ + 1
  else if ⌊q⌋ % 2 = 0 then ⌊q⌋ else ⌊q⌋ + 1

/-- Python `round(x, 1)`. -/
def pyRound1 (q : ℚ) : ℚ := (roundHalfEven (q * 10) : ℚ) / 10

/-- The latency table of `NodeSelector.calculate_score` (both scripts). -/
def latency_score_NS (latency : ℤ) : ℚ :=
  if latency < 50 then 100
  else if latency < 100 then 95
  else if latency < 200 then 85
  else if latency < 300 then 75
  else if latency < 500 then 60
  else if latency < 1000 then 40
  else 20

/-- The speed table of `NodeSelector.calculate_score` (both scripts). -/
def speed_score_NS (speed : ℤ) : ℚ :=
  if speed = 0 then 0
  else if 10000 < speed then 100
  else if 5000 < speed then 90
  else if 2000 < speed then 80
  else if 1000 < speed then 70
  else if 500 < speed then 60
  else if 100 < speed then 40
  else 20

/-- `NodeSelector.calculate_score` (identical in the v1 and v2 scripts):
weights 0.5 / 0.3 / 0.2, result rounded to one decimal. -/
def calculate_score_NS (latency speed : ℤ) (success : Bool) : ℚ :=
  if latency ≤ 0 then 0
  else
    pyRound1 (latency_score_NS latency * (5/10) + speed_score_NS speed * (3/10)
      + (if success then 100 else 0) * (2/10))

/-- The latency table of `SubscriptionGenerator.calculate_score`. -/
def latency_score_SG (latency : ℤ) : ℚ :=
  if latency < 50 then 100
  else if latency < 100 then 95
  else if latency < 200 then 85
  else if latency < 300 then 75
  else if latency < 500 then 60
  else 40

/-- The speed table of `SubscriptionGenerator.calculate_score`. -/
def speed_score_SG (speed : ℤ) : ℚ :=
  if speed = 0 then 0
  else if 5000 < speed then 100
  else if 2000 < speed then 90
  else if 1000 < speed then 80
  else if 500 < speed then 70
  else if 100 < speed then 50
  else 30

/-- `SubscriptionGenerator.calculate_score`: weights 0.6 / 0.4 / 0.2
normalised by 1.2, result rounded to one decimal. -/
def calculate_score_SG (latency speed : ℤ) (success : Bool) : ℚ :=
  if latency ≤ 0 then 0
  else
    pyRound1 ((latency_score_SG latency * (6/10) + speed_score_SG speed * (4/10)
      + (if success then 100 else 0) * (2/10)) / (12/10))

/-- One entry of the `test_urls` table. -/
structure TestUrl where
  name : List Char
  expected_status : ℤ
  weight : ℚ
deriving DecidableEq, Repr

/-- The outcome of one `requests.get` latency probe: a raised
`RequestException`, or a response with a status code and a measured
round-trip time in milliseconds. -/
inductive Outcome where
  | err : Outcome
  | ok : ℤ → ℤ → Outcome
deriving DecidableEq, Repr

/-- One record appended to `test_results` by `test_latency`. -/
structure Attempt where
  url : List Char
  latency : ℤ
  status : ℤ
  success : Bool
  weight : ℚ
deriving DecidableEq, Repr

/-- The dict returned by `test_latency`. -/
structure LatencyReport where
  fastest_success : Option Attempt
  all_results : List Attempt
  passed : Bool
deriving DecidableEq, Repr

/-- `test_urls` of `SubscriptionGenerator`. -/
def test_urls_SG : List TestUrl :=
  [TestUrl.mk "Google Static".data 204 1,
   TestUrl.mk "HttpBin".data 200 (9/10)]

/-- `test_urls` of `NodeSelector` (both scripts). -/
def test_urls_NS : List TestUrl :=
  [TestUrl.mk "Google Static".data 204 1,
   TestUrl.mk "HttpBin".data 200 (9/10),
   TestUrl.mk "Cloudflare".data 200 (8/10),
   TestUrl.mk "GitHub".data 200 (7/10)]

/-- Does the new latency beat the recorded fastest success
(`not fastest_success or latency < fastest_success['latency']`)? -/
def fasterThan (fastest : Option Attempt) (lat : ℤ) : Bool :=
  match fastest with
  | none => true
  | some f => decide (lat < f.latency)

/-- The `fastest_success` update of `test_latency`. -/
def fastestUpdate (threshold : ℤ) (fastest : Option Attempt) (r : Attempt) : Option Attempt :=
  if r.success && decide (r.latency < threshold) && fasterThan fastest r.latency
  then some r else fastest

/-- The endpoint loop of `test_latency`, over the zipped list of endpoints and
their probe outcomes.  An exception appends a `latency = -1` failure record
and continues; a measured latency below 100 ms breaks out of the loop after
the `fastest_success` update. -/
def testLatencyGo (threshold : ℤ) :
    Option Attempt → List Attempt → List (TestUrl × Outcome) → List Attempt × Option Attempt
  | fastest, acc, [] => (acc, fastest)
  | fastest, acc, (u, Outcome.err) :: rest =>
      testLatencyGo threshold fastest (acc ++ [Attempt.mk u.name (-1) 0 false u.weight]) rest
  | fastest, acc, (u, Outcome.ok status lat) :: rest =>
      let r := Attempt.mk u.name lat status (decide (status = u.expected_status)) u.weight
      let fastest2 := fastestUpdate threshold fastest r
      if lat < 100 then (acc ++ [r], fastest2)
      else testLatencyGo threshold fastest2 (acc ++ [r]) rest

/-- `test_latency`, as a function of the endpoint table, the configured
latency threshold, and the probe outcome of each endpoint. -/
def test_latency (threshold : ℤ) (urls : List TestUrl) (outcomes : List Outcome) :
    LatencyReport :=
  let p := testLatencyGo threshold none [] (urls.zip outcomes)
  LatencyReport.mk p.2 p.1 p.2.isSome

/-- The speed-test gate of `test_single_node`: after a passed latency test,
the throughput protocol runs iff `latency < self.latency_threshold`. -/
def speed_test_invoked (threshold : ℤ) (report : LatencyReport) : Bool :=
  report.passed &&
    (match report.fastest_success with
     | none => false
     | some f => decide (f.latency < threshold))

/-- The Python exception relevant to the geo lookup that is not a
`requests.RequestException`: the `AttributeError` raised by calling `.get`
or `.split` on a value of the wrong type. -/
inductive PyExc where
  | attributeError : PyExc
deriving DecidableEq, Repr

/-- The `origin` entry of a parsed `httpbin.org/ip` JSON object: absent
(`.get('origin', '')` falls back to the empty string), a string, or a JSON
value of another type, on which `.split(',')` raises `AttributeError`. -/
inductive OriginField where
  | missing : OriginField
  | str : List Char → OriginField
  | nonStr : OriginField
deriving DecidableEq, Repr

/-- Body of a 200 response from `httpbin.org/ip`: `.json()` itself may
raise, the decoded JSON may be a non-object value (so `ip_data.get` raises
`AttributeError`), or it is an object with an optional `origin` entry. -/
inductive IpBody where
  | jsonErr : IpBody
  | nonObject : IpBody
  | obj : OriginField → IpBody
deriving DecidableEq, Repr

/-- Parsed `ip-api.com` JSON object; every key may be absent. -/
structure GeoApiBody where
  status : Option (List Char)
  country : Option (List Char)
  city : Option (List Char)
  isp : Option (List Char)
  lat : Option ℚ
  lon : Option ℚ
deriving DecidableEq, Repr

/-- Body of a 200 response from `ip-api.com`: `.json()` may raise, the
decoded JSON may be a non-object value (so `geo_data.get` raises
`AttributeError`), or it is an object. -/
inductive GeoBody where
  | jsonErr : GeoBody
  | nonObject : GeoBody
  | obj : GeoApiBody → GeoBody
deriving DecidableEq, Repr

/-- Outcome of the `ip-api.com` HTTP call: a raised request exception, or a
response with a status code and a body. -/
inductive GeoCall where
  | netErr : GeoCall
  | got : ℤ → GeoBody → GeoCall
deriving DecidableEq, Repr

/-- Outcome of the own-IP HTTP call. -/
inductive IpCall where
  | netErr : IpCall
  | got : ℤ → IpBody → IpCall
deriving DecidableEq, Repr

/-- The network environment seen by one `get_geo_info` invocation. -/
structure GeoEnv where
  ipCall : IpCall
  geoCall : GeoCall
deriving DecidableEq, Repr

/-- Python truthiness of an optional string (`None` and `''` are falsy). -/
def pyTruthy (s : Option (List Char)) : Bool :=
  match s with
  | none => false
  | some l => !l.isEmpty

/-- The record returned by `SubscriptionGenerator.get_geo_info`. -/
structure GeoInfoSG where
  country : List Char
  city : List Char
  isp : List Char
  ip : List Char
deriving DecidableEq, Repr

/-- The all-"Unknown" fallback of `SubscriptionGenerator.get_geo_info`. -/
def unknownGeoSG : GeoInfoSG :=
  GeoInfoSG.mk "Unknown".data "Unknown".data "Unknown".data "Unknown".data

/-- The second half of `SubscriptionGenerator.get_geo_info`: `if ip:` then the
`ip-api.com` lookup; any non-success path falls through to the fallback.
Every raise — network error, `.json()` failure, or the `AttributeError` from
`geo_data.get` on a non-object body — is caught by the enclosing bare
`except` and also yields the fallback. -/
def geoPhase2SG (curIp : Option (List Char)) (call : GeoCall) : GeoInfoSG :=
  if pyTruthy curIp then
    match call with
    | GeoCall.netErr => unknownGeoSG
    | GeoCall.got st body =>
        if st = 200 then
          match body with
          | GeoBody.jsonErr => unknownGeoSG
          | GeoBody.nonObject => unknownGeoSG
          | GeoBody.obj g =>
              if g.status = some "success".data then
                GeoInfoSG.mk (g.country.getD "Unknown".data) (g.city.getD "Unknown".data)
                  (g.isp.getD "Unknown".data) (curIp.getD [])
              else unknownGeoSG
        else unknownGeoSG
  else unknownGeoSG

/-- `SubscriptionGenerator.get_geo_info(ip=None)`: when the argument is falsy,
first resolve the caller's own public IP via `httpbin.org/ip`
(`.get('origin', '').split(',')[0]`), then look the IP up on `ip-api.com`.
The bare `except` catches every raise, including the `AttributeError` from a
non-object JSON body or a non-string `origin` value. -/
def get_geo_info_SG (ip : Option (List Char)) (env : GeoEnv) : GeoInfoSG :=
  if pyTruthy ip then geoPhase2SG ip env.geoCall
  else
    match env.ipCall with
    | IpCall.netErr => unknownGeoSG
    | IpCall.got st body =>
        if st = 200 then
          match body with
          | IpBody.jsonErr => unknownGeoSG
          | IpBody.nonObject => unknownGeoSG
          | IpBody.obj OriginField.missing => geoPhase2SG (some []) env.geoCall
          | IpBody.obj (OriginField.str s) =>
              geoPhase2SG (some (s.takeWhile (fun c => c != ','))) env.geoCall
          | IpBody.obj OriginField.nonStr => unknownGeoSG
        else geoPhase2SG ip env.geoCall

/-- The record returned by `NodeSelector.get_geo_info` (both scripts). -/
structure GeoInfoNS where
  country : List Char
  city : List Char
  isp : List Char
  lat : Option ℚ
  lon : Option ℚ
  ip : List Char
deriving DecidableEq, Repr

/-- The all-"Unknown" fallback of `NodeSelector.get_geo_info`. -/
def unknownGeoNS : GeoInfoNS :=
  GeoInfoNS.mk "Unknown".data "Unknown".data "Unknown".data none none "Unknown".data

/-- The `ip-api.com` half of `NodeSelector.get_geo_info`.  Only
`requests.RequestException` is caught (network errors, and `.json()`
failures, which `requests` raises as `RequestException` subclasses); the
`AttributeError` from `geo_data.get` on a non-object body propagates. -/
def geoPhase2NS (curIp : Option (List Char)) (call : GeoCall) : Except PyExc GeoInfoNS :=
  if pyTruthy curIp then
    match call with
    | GeoCall.netErr => Except.ok unknownGeoNS
    | GeoCall.got st body =>
        if st = 200 then
          match body with
          | GeoBody.jsonErr => Except.ok unknownGeoNS
          | GeoBody.nonObject => Except.error PyExc.attributeError
          | GeoBody.obj g =>
              if g.status = some "success".data then
                Except.ok (GeoInfoNS.mk (g.country.getD "Unknown".data)
                  (g.city.getD "Unknown".data) (g.isp.getD "Unknown".data)
                  g.lat g.lon (curIp.getD []))
              else Except.ok unknownGeoNS
        else Except.ok unknownGeoNS
  else Except.ok unknownGeoNS

/-- `NodeSelector.get_geo_info` (both scripts): always resolves the caller's
own public IP first.  Its `except requests.RequestException` catches network
errors and `.json()` failures, but the `AttributeError` raised by
`ip_data.get` on a non-object JSON body, or by `.split` on a non-string
`origin` value, propagates to the caller (`Except.error`). -/
def get_geo_info_NS (env : GeoEnv) : Except PyExc GeoInfoNS :=
  match env.ipCall with
  | IpCall.netErr => Except.ok unknownGeoNS
  | IpCall.got st body =>
      if st = 200 then
        match body with
        | IpBody.jsonErr => Except.ok unknownGeoNS
        | IpBody.nonObject => Except.error PyExc.attributeError
        | IpBody.obj OriginField.missing => geoPhase2NS (some []) env.geoCall
        | IpBody.obj (OriginField.str s) =>
            geoPhase2NS (some (s.takeWhile (fun c => c != ','))) env.geoCall
        | IpBody.obj OriginField.nonStr => Except.error PyExc.attributeError
      else Except.ok unknownGeoNS

/-- One entry of `self.results` in `SubscriptionGenerator`
(the dict built by `test_single_node`). -/
structure NodeResult where
  node : List Char
  type : Protocol
  latency : ℤ
  speed : ℤ
  country : List Char
  isp : List Char
  score : ℚ
  success : Bool
  source : Option Source
deriving DecidableEq, Repr

/-- The quality filter of `SubscriptionGenerator.generate_neko_subscription`:
`result['success'] and result['score'] > 30 and result.get('speed', 0) > 100`. -/
def filter_valid_SG (results : List NodeResult) : List NodeResult :=
  results.filter
    (fun r => r.success && decide ((30 : ℚ) < r.score) && decide ((100 : ℤ) < r.speed))

/-- The node selection of `generate_neko_subscription`: quality filter
followed by truncation to the top-N entries (`valid_nodes[:self.top_n]`). -/
def select_subscription_nodes (top_n : ℕ) (results : List NodeResult) : List NodeResult :=
  (filter_valid_SG results).take top_n

/-- The reference example line from the spec. -/
def ssExampleLine : List Char :=
  "ss://YWVzLTI1Ni1nY206cGFzc3dvcmQ=@example.com:8388".data

end AggregatePreferredNode

namespace AggregatePreferredNode

/-! ### Helper lemmas about `pyStrip` -/

theorem dropWhile_eq_self_of_head {p : Char → Bool} {l : List Char}
    (h : ∀ c, l.head? = some c → p c = false) : l.dropWhile p = l := by
  cases l with
  | nil => rfl
  | cons a l => simp [List.dropWhile, h a rfl]

theorem head_dropWhile_false {p : Char → Bool} {l : List Char} {c : Char}
    (h : (l.dropWhile p).head? = some c) : p c = false := by
  induction l with
  | nil => simp [List.dropWhile] at h
  | cons a l ih =>
      by_cases hp : p a
      · rw [List.dropWhile_cons_of_pos hp] at h
        exact ih h
      · rw [List.dropWhile_cons_of_neg hp] at h
        simp at h
        subst h
        simpa using hp

theorem getLast_dropWhile {p : Char → Bool} {l : List Char}
    (h : l.dropWhile p ≠ []) : (l.dropWhile p).getLast? = l.getLast? := by
  induction l with
  | nil => simp [List.dropWhile] at h
  | cons a l ih =>
      by_cases hp : p a
      · rw [List.dropWhile_cons_of_pos hp] at h ⊢
        have hl : l ≠ [] := by
          intro he
          rw [he] at h
          simp [List.dropWhile] at h
        rw [ih h]
        cases l with
        | nil => exact absurd rfl hl
        | cons b l2 => rw [List.getLast?_cons_cons]
      · rw [List.dropWhile_cons_of_neg hp]

/-- `pyStrip` is idempotent. -/
theorem pyStrip_idem (l : List Char) : pyStrip (pyStrip l) = pyStrip l := by
  unfold pyStrip
  have h1 : (((l.dropWhile isPySpace).reverse.dropWhile isPySpace).reverse).dropWhile isPySpace
      = ((l.dropWhile isPySpace).reverse.dropWhile isPySpace).reverse := by
    apply dropWhile_eq_self_of_head
    intro c hc
    rw [List.head?_reverse] at hc
    by_cases hynil : (l.dropWhile isPySpace).reverse.dropWhile isPySpace = []
    · rw [hynil] at hc
      simp at hc
    · rw [getLast_dropWhile hynil, List.getLast?_reverse] at hc
      exact head_dropWhile_false hc
  have h2 : ((l.dropWhile isPySpace).reverse.dropWhile isPySpace).dropWhile isPySpace
      = (l.dropWhile isPySpace).reverse.dropWhile isPySpace := by
    apply dropWhile_eq_self_of_head
    intro c hc
    exact head_dropWhile_false hc
  rw [h1, List.reverse_reverse, h2]

end AggregatePreferredNode

namespace AggregatePreferredNode

/-! ### Helper lemmas about `firstMatch` -/

theorem firstMatch_eq_none_iff (ps : List (Protocol × PatKind)) (l : List Char) :
    firstMatch ps l = none ↔ ∀ p ∈ ps, runPat p.2 l = none := by
  induction ps with
  | nil => simp [firstMatch]
  | cons p ps ih =>
      cases h : runPat p.2 l with
      | none => simp [firstMatch, h, ih]
      | some g =>
          simp only [firstMatch, h]
          constructor
          · intro hx
            cases hx
          · intro hall
            have := hall p (List.mem_cons_self p ps)
            rw [h] at this
            cases this

theorem firstMatch_append (l : List Char) (ps₁ : List (Protocol × PatKind))
    (pr : Protocol) (k : PatKind) (ps₂ : List (Protocol × PatKind)) (g : List (List Char))
    (h₁ : ∀ q ∈ ps₁, runPat q.2 l = none) (h₂ : runPat k l = some g) :
    firstMatch (ps₁ ++ (pr, k) :: ps₂) l = some (Node.mk l pr g none) := by
  induction ps₁ with
  | nil => simp [firstMatch, h₂]
  | cons q qs ih =>
      have hq : runPat q.2 l = none := h₁ q (List.mem_cons_self q qs)
      simp only [List.cons_append, firstMatch, hq]
      exact ih (fun r hr => h₁ r (List.mem_cons_of_mem q hr))

theorem firstMatch_shape {ps : List (Protocol × PatKind)} {l : List Char} {n : Node}
    (h : firstMatch ps l = some n) :
    n.original = l ∧ n.source = none ∧ n.type ∈ ps.map Prod.fst := by
  induction ps with
  | nil => simp [firstMatch] at h
  | cons p ps ih =>
      cases hr : runPat p.2 l with
      | none =>
          rw [firstMatch, hr] at h
          obtain ⟨h1, h2, h3⟩ := ih h
          exact ⟨h1, h2, List.mem_cons_of_mem _ h3⟩
      | some g =>
          rw [firstMatch, hr] at h
          cases h
          exact ⟨rfl, rfl, List.mem_cons_self _ _⟩

/-! ### Helper lemmas about deduplication -/

theorem dedupNodes_sublist (seen : List (List Char)) (l : List Node) :
    List.Sublist (dedupNodes seen l) l := by
  induction l generalizing seen with
  | nil => simp [dedupNodes]
  | cons n rest ih =>
      rw [dedupNodes]
      by_cases h : n.original ∈ seen
      · rw [if_pos h]
        exact List.Sublist.cons n (ih seen)
      · rw [if_neg h]
        exact List.Sublist.cons₂ n (ih (n.original :: seen))

theorem dedupNodes_not_mem_seen {seen : List (List Char)} {l : List Node} {n : Node}
    (h : n ∈ dedupNodes seen l) : n.original ∉ seen := by
  induction l generalizing seen with
  | nil => simp [dedupNodes] at h
  | cons m rest ih =>
      rw [dedupNodes] at h
      by_cases hm : m.original ∈ seen
      · rw [if_pos hm] at h
        exact ih h
      · rw [if_neg hm] at h
        rcases List.mem_cons.mp h with he | ht
        · subst he
          exact hm
        · intro hs
          exact ih ht (List.mem_cons_of_mem _ hs)

theorem dedupNodes_nodup (seen : List (List Char)) (l : List Node) :
    ((dedupNodes seen l).map Node.original).Nodup := by
  induction l generalizing seen with
  | nil => simp [dedupNodes]
  | cons m rest ih =>
      rw [dedupNodes]
      by_cases hm : m.original ∈ seen
      · rw [if_pos hm]
        exact ih seen
      · rw [if_neg hm]
        rw [List.map_cons, List.nodup_cons]
        refine ⟨?_, ih (m.original :: seen)⟩
        intro hmem
        rcases List.mem_map.mp hmem with ⟨n, hn, he⟩
        exact dedupNodes_not_mem_seen hn (he ▸ List.mem_cons_self _ _)

theorem dedupNodes_mem_original (seen : List (List Char)) (l : List Node) (r : List Char) :
    r ∈ (dedupNodes seen l).map Node.original ↔ r ∈ l.map Node.original ∧ r ∉ seen := by
  induction l generalizing seen with
  | nil => simp [dedupNodes]
  | cons m rest ih =>
      rw [dedupNodes]
      by_cases hm : m.original ∈ seen
      · rw [if_pos hm]
        rw [ih seen]
        simp only [List.map_cons, List.mem_cons]
        constructor
        · rintro ⟨h1, h2⟩
          exact ⟨Or.inr h1, h2⟩
        · rintro ⟨h1 | h1, h2⟩
          · exact absurd (h1 ▸ hm) h2
          · exact ⟨h1, h2⟩
      · rw [if_neg hm]
        simp only [List.map_cons, List.mem_cons]
        rw [ih (m.original :: seen)]
        simp only [List.mem_cons]
        constructor
        · rintro (he | ⟨h1, h2⟩)
          · exact ⟨Or.inl he, he ▸ hm⟩
          · exact ⟨Or.inr h1, fun hs => h2 (Or.inr hs)⟩
        · rintro ⟨he | h1, h2⟩
          · exact Or.inl he
          · by_cases hq : r = m.original
            · exact Or.inl hq
            · exact Or.inr ⟨h1, fun hs => (hs.elim hq h2)⟩

theorem dedupNodes_find (seen : List (List Char)) (l : List Node) (n : Node)
    (h : n ∈ dedupNodes seen l) :
    l.find? (fun m => decide (m.original = n.original)) = some n := by
  induction l generalizing seen with
  | nil => simp [dedupNodes] at h
  | cons m rest ih =>
      rw [dedupNodes] at h
      by_cases hm : m.original ∈ seen
      · rw [if_pos hm] at h
        have hne : m.original ≠ n.original := by
          intro he
          exact dedupNodes_not_mem_seen h (he ▸ hm)
        rw [List.find?_cons_of_neg _ (by simpa using hne)]
        exact ih seen h
      · rw [if_neg hm] at h
        rcases List.mem_cons.mp h with he | ht
        · subst he
          rw [List.find?_cons_of_pos _ (by simp)]
        · have hne : m.original ≠ n.original := by
            intro he
            exact dedupNodes_not_mem_seen ht (he ▸ List.mem_cons_self _ _)
          rw [List.find?_cons_of_neg _ (by simpa using hne)]
          exact ih (m.original :: seen) ht

theorem dedupNodes_of_nodup (seen : List (List Char)) (l : List Node)
    (hd : (l.map Node.original).Nodup) (hs : ∀ r ∈ l.map Node.original, r ∉ seen) :
    dedupNodes seen l = l := by
  induction l generalizing seen with
  | nil => rfl
  | cons m rest ih =>
      rw [List.map_cons, List.nodup_cons] at hd
      rw [dedupNodes, if_neg (hs m.original (by simp))]
      congr 1
      refine ih (m.original :: seen) hd.2 ?_
      intro r hr hmem
      rcases List.mem_cons.mp hmem with he | ht
      · exact hd.1 (he ▸ hr)
      · exact hs r (List.mem_cons_of_mem _ hr) ht

end AggregatePreferredNode

namespace AggregatePreferredNode

/-! ### Helper lemmas about rounding -/

theorem roundHalfEven_cases (q : ℚ) :
    roundHalfEven q = ⌊q⌋ ∨ roundHalfEven q = ⌊q⌋ + 1 := by
  unfold roundHalfEven
  split_ifs <;> simp

theorem sub_half_le_roundHalfEven (q : ℚ) : q - 1/2 ≤ (roundHalfEven q : ℚ) := by
  have h1 : (⌊q⌋ : ℚ) ≤ q := Int.floor_le q
  have h2 : q < ⌊q⌋ + 1 := Int.lt_floor_add_one q
  unfold roundHalfEven
  split_ifs with ha hb hc
  · linarith
  · push_cast
    linarith
  · linarith
  · push_cast
    linarith

theorem roundHalfEven_le_add_half (q : ℚ) : (roundHalfEven q : ℚ) ≤ q + 1/2 := by
  have h1 : (⌊q⌋ : ℚ) ≤ q := Int.floor_le q
  have h2 : q < ⌊q⌋ + 1 := Int.lt_floor_add_one q
  unfold roundHalfEven
  split_ifs with ha hb hc
  · linarith
  · rw [not_lt] at ha
    push_cast
    linarith
  · linarith
  · rw [not_lt] at ha hb
    push_cast
    linarith

theorem roundHalfEven_eq_add_half {q : ℚ} (h : (roundHalfEven q : ℚ) = q + 1/2) :
    ⌊q⌋ % 2 ≠ 0 := by
  have h1 : (⌊q⌋ : ℚ) ≤ q := Int.floor_le q
  have h2 : q < ⌊q⌋ + 1 := Int.lt_floor_add_one q
  unfold roundHalfEven at h
  split_ifs at h with ha hb hc
  · exfalso
    linarith
  · exfalso
    rw [not_lt] at ha
    push_cast at h
    linarith
  · exfalso
    linarith
  · exact hc

theorem roundHalfEven_eq_sub_half {q : ℚ} (h : (roundHalfEven q : ℚ) = q - 1/2) :
    ⌊q⌋ % 2 = 0 := by
  have h1 : (⌊q⌋ : ℚ) ≤ q := Int.floor_le q
  have h2 : q < ⌊q⌋ + 1 := Int.lt_floor_add_one q
  unfold roundHalfEven at h
  split_ifs at h with ha hb hc
  · exfalso
    linarith
  · exfalso
    push_cast at h
    linarith
  · exact hc
  · exfalso
    push_cast at h
    linarith

theorem roundHalfEven_mono {q₁ q₂ : ℚ} (h : q₁ ≤ q₂) :
    roundHalfEven q₁ ≤ roundHalfEven q₂ := by
  by_contra hlt
  rw [not_le] at hlt
  have hint : roundHalfEven q₂ + 1 ≤ roundHalfEven q₁ := hlt
  have hintq : (roundHalfEven q₂ : ℚ) + 1 ≤ (roundHalfEven q₁ : ℚ) := by
    exact_mod_cast hint
  have b1 : (roundHalfEven q₁ : ℚ) ≤ q₁ + 1/2 := roundHalfEven_le_add_half q₁
  have b2 : q₂ - 1/2 ≤ (roundHalfEven q₂ : ℚ) := sub_half_le_roundHalfEven q₂
  have hq : q₁ = q₂ := le_antisymm h (by linarith)
  have e1 : (roundHalfEven q₁ : ℚ) = q₁ + 1/2 := by linarith
  have e2 : (roundHalfEven q₂ : ℚ) = q₂ - 1/2 := by linarith
  have o1 := roundHalfEven_eq_add_half e1
  have o2 := roundHalfEven_eq_sub_half e2
  rw [hq] at o1
  exact o1 o2

theorem roundHalfEven_le_int {q : ℚ} {b : ℤ} (h : q ≤ (b : ℚ)) :
    roundHalfEven q ≤ b := by
  by_contra hlt
  rw [not_le] at hlt
  have hintq : (b : ℚ) + 1 ≤ (roundHalfEven q : ℚ) := by
    exact_mod_cast hlt
  have b1 : (roundHalfEven q : ℚ) ≤ q + 1/2 := roundHalfEven_le_add_half q
  linarith

theorem int_le_roundHalfEven {q : ℚ} {a : ℤ} (h : (a : ℚ) ≤ q) :
    a ≤ roundHalfEven q := by
  by_contra hlt
  rw [not_le] at hlt
  have hintq : (roundHalfEven q : ℚ) + 1 ≤ (a : ℚ) := by
    exact_mod_cast hlt
  have b2 : q - 1/2 ≤ (roundHalfEven q : ℚ) := sub_half_le_roundHalfEven q
  linarith

theorem pyRound1_mono {q₁ q₂ : ℚ} (h : q₁ ≤ q₂) : pyRound1 q₁ ≤ pyRound1 q₂ := by
  unfold pyRound1
  have := roundHalfEven_mono (by linarith : q₁ * 10 ≤ q₂ * 10)
  have hc : (roundHalfEven (q₁ * 10) : ℚ) ≤ (roundHalfEven (q₂ * 10) : ℚ) := by
    exact_mod_cast this
  linarith

theorem pyRound1_bounds {q : ℚ} (h0 : 0 ≤ q) (h100 : q ≤ 100) :
    0 ≤ pyRound1 q ∧ pyRound1 q ≤ 100 := by
  unfold pyRound1
  have hl : ((0 : ℤ) : ℚ) ≤ q * 10 := by push_cast; linarith
  have hu : q * 10 ≤ ((1000 : ℤ) : ℚ) := by push_cast; linarith
  have h1 := int_le_roundHalfEven hl
  have h2 := roundHalfEven_le_int hu
  have h1q : (0 : ℚ) ≤ (roundHalfEven (q * 10) : ℚ) := by exact_mod_cast h1
  have h2q : (roundHalfEven (q * 10) : ℚ) ≤ 1000 := by exact_mod_cast h2
  constructor
  · linarith
  · linarith

/-! ### Helper lemmas about the score tables -/

theorem latency_score_NS_bounds (l : ℤ) :
    20 ≤ latency_score_NS l ∧ latency_score_NS l ≤ 100 := by
  unfold latency_score_NS
  split_ifs <;> norm_num

theorem latency_score_SG_bounds (l : ℤ) :
    40 ≤ latency_score_SG l ∧ latency_score_SG l ≤ 100 := by
  unfold latency_score_SG
  split_ifs <;> norm_num

theorem speed_score_NS_bounds (s : ℤ) :
    0 ≤ speed_score_NS s ∧ speed_score_NS s ≤ 100 := by
  unfold speed_score_NS
  split_ifs <;> norm_num

theorem speed_score_SG_bounds (s : ℤ) :
    0 ≤ speed_score_SG s ∧ speed_score_SG s ≤ 100 := by
  unfold speed_score_SG
  split_ifs <;> norm_num

set_option maxHeartbeats 1000000 in
theorem latency_score_NS_anti {l₁ l₂ : ℤ} (h : l₁ ≤ l₂) :
    latency_score_NS l₂ ≤ latency_score_NS l₁ := by
  unfold latency_score_NS
  split_ifs <;> first | (exfalso; omega) | norm_num

set_option maxHeartbeats 1000000 in
theorem latency_score_SG_anti {l₁ l₂ : ℤ} (h : l₁ ≤ l₂) :
    latency_score_SG l₂ ≤ latency_score_SG l₁ := by
  unfold latency_score_SG
  split_ifs <;> first | (exfalso; omega) | norm_num

set_option maxHeartbeats 1000000 in
theorem speed_score_NS_mono {s₁ s₂ : ℤ} (h0 : 0 ≤ s₁) (h : s₁ ≤ s₂) :
    speed_score_NS s₁ ≤ speed_score_NS s₂ := by
  unfold speed_score_NS
  split_ifs <;> first | (exfalso; omega) | norm_num

set_option maxHeartbeats 1000000 in
theorem speed_score_SG_mono {s₁ s₂ : ℤ} (h0 : 0 ≤ s₁) (h : s₁ ≤ s₂) :
    speed_score_SG s₁ ≤ speed_score_SG s₂ := by
  unfold speed_score_SG
  split_ifs <;> first | (exfalso; omega) | norm_num

end AggregatePreferredNode

namespace AggregatePreferredNode

/-! ### Helper lemmas about `calculate_score` -/

theorem success_score_bounds (suc : Bool) :
    0 ≤ (if suc then (100 : ℚ) else 0) ∧ (if suc then (100 : ℚ) else 0) ≤ 100 := by
  cases suc <;> norm_num

theorem calculate_score_NS_bounds (l s : ℤ) (suc : Bool) :
    0 ≤ calculate_score_NS l s suc ∧ calculate_score_NS l s suc ≤ 100 := by
  unfold calculate_score_NS
  by_cases hl : l ≤ 0
  · rw [if_pos hl]
    norm_num
  · rw [if_neg hl]
    have hls := latency_score_NS_bounds l
    have hss := speed_score_NS_bounds s
    have hsc := success_score_bounds suc
    exact pyRound1_bounds (by linarith [hls.1, hss.1, hsc.1]) (by linarith [hls.2, hss.2, hsc.2])

theorem calculate_score_SG_bounds (l s : ℤ) (suc : Bool) :
    0 ≤ calculate_score_SG l s suc ∧ calculate_score_SG l s suc ≤ 100 := by
  unfold calculate_score_SG
  by_cases hl : l ≤ 0
  · rw [if_pos hl]
    norm_num
  · rw [if_neg hl]
    have hls := latency_score_SG_bounds l
    have hss := speed_score_SG_bounds s
    have hsc := success_score_bounds suc
    exact pyRound1_bounds (by linarith [hls.1, hss.1, hsc.1]) (by linarith [hls.2, hss.2, hsc.2])

theorem calculate_score_NS_onedecimal (l s : ℤ) (suc : Bool) :
    ∃ k : ℤ, calculate_score_NS l s suc = (k : ℚ) / 10 := by
  unfold calculate_score_NS
  by_cases hl : l ≤ 0
  · rw [if_pos hl]
    exact ⟨0, by norm_num⟩
  · rw [if_neg hl]
    exact ⟨_, rfl⟩

theorem calculate_score_SG_onedecimal (l s : ℤ) (suc : Bool) :
    ∃ k : ℤ, calculate_score_SG l s suc = (k : ℚ) / 10 := by
  unfold calculate_score_SG
  by_cases hl : l ≤ 0
  · rw [if_pos hl]
    exact ⟨0, by norm_num⟩
  · rw [if_neg hl]
    exact ⟨_, rfl⟩

theorem calculate_score_NS_latency_anti {l₁ l₂ : ℤ} (s : ℤ) (suc : Bool)
    (h1 : 0 < l₁) (h : l₁ ≤ l₂) :
    calculate_score_NS l₂ s suc ≤ calculate_score_NS l₁ s suc := by
  unfold calculate_score_NS
  rw [if_neg (show ¬ l₂ ≤ 0 by omega), if_neg (show ¬ l₁ ≤ 0 by omega)]
  apply pyRound1_mono
  have := latency_score_NS_anti h
  linarith

theorem calculate_score_SG_latency_anti {l₁ l₂ : ℤ} (s : ℤ) (suc : Bool)
    (h1 : 0 < l₁) (h : l₁ ≤ l₂) :
    calculate_score_SG l₂ s suc ≤ calculate_score_SG l₁ s suc := by
  unfold calculate_score_SG
  rw [if_neg (show ¬ l₂ ≤ 0 by omega), if_neg (show ¬ l₁ ≤ 0 by omega)]
  apply pyRound1_mono
  have := latency_score_SG_anti h
  linarith

theorem calculate_score_NS_speed_mono (l : ℤ) {s₁ s₂ : ℤ} (suc : Bool)
    (hl : 0 < l) (h0 : 0 ≤ s₁) (h : s₁ ≤ s₂) :
    calculate_score_NS l s₁ suc ≤ calculate_score_NS l s₂ suc := by
  unfold calculate_score_NS
  simp only [if_neg (show ¬ l ≤ 0 by omega)]
  apply pyRound1_mono
  have := speed_score_NS_mono h0 h
  linarith

theorem calculate_score_SG_speed_mono (l : ℤ) {s₁ s₂ : ℤ} (suc : Bool)
    (hl : 0 < l) (h0 : 0 ≤ s₁) (h : s₁ ≤ s₂) :
    calculate_score_SG l s₁ suc ≤ calculate_score_SG l s₂ suc := by
  unfold calculate_score_SG
  simp only [if_neg (show ¬ l ≤ 0 by omega)]
  apply pyRound1_mono
  have := speed_score_SG_mono h0 h
  linarith

end AggregatePreferredNode

namespace AggregatePreferredNode

/-! ### Helper lemmas about the latency protocol loop -/

theorem fastestUpdate_eq_some {th : ℤ} {fa : Option Attempt} {r f : Attempt}
    (h : fastestUpdate th fa r = some f) :
    fa = some f ∨ (f = r ∧ r.success = true ∧ r.latency < th) := by
  unfold fastestUpdate at h
  by_cases hc : (r.success && decide (r.latency < th) && fasterThan fa r.latency) = true
  · rw [if_pos hc] at h
    injection h with h
    simp only [Bool.and_eq_true, decide_eq_true_eq] at hc
    exact Or.inr ⟨h.symm, hc.1.1, hc.1.2⟩
  · rw [if_neg hc] at h
    exact Or.inl h

theorem testLatencyGo_fastest_inv (th : ℤ) (l : List (TestUrl × Outcome)) :
    ∀ (fa : Option Attempt) (acc : List Attempt) (f : Attempt),
      (testLatencyGo th fa acc l).2 = some f →
      fa = some f ∨ ∃ u st lat, (u, Outcome.ok st lat) ∈ l ∧ st = u.expected_status ∧
        lat < th ∧ f = Attempt.mk u.name lat st (decide (st = u.expected_status)) u.weight := by
  induction l with
  | nil =>
      intro fa acc f h
      simp only [testLatencyGo] at h
      exact Or.inl h
  | cons x rest ih =>
      intro fa acc f h
      obtain ⟨u0, o0⟩ := x
      cases o0 with
      | err =>
          simp only [testLatencyGo] at h
          rcases ih _ _ _ h with hfa | ⟨u, st, lat, hmem, hrest⟩
          · exact Or.inl hfa
          · exact Or.inr ⟨u, st, lat, List.mem_cons_of_mem _ hmem, hrest⟩
      | ok st0 lat0 =>
          simp only [testLatencyGo] at h
          by_cases hb : lat0 < 100
          · rw [if_pos hb] at h
            rcases fastestUpdate_eq_some h with hfa | ⟨hf, hsuc, hlt⟩
            · exact Or.inl hfa
            · refine Or.inr ⟨u0, st0, lat0, List.mem_cons_self _ _, ?_, hlt, hf⟩
              simpa using hsuc
          · rw [if_neg hb] at h
            rcases ih _ _ _ h with hup | ⟨u, st, lat, hmem, hrest⟩
            · rcases fastestUpdate_eq_some hup with hfa | ⟨hf, hsuc, hlt⟩
              · exact Or.inl hfa
              · refine Or.inr ⟨u0, st0, lat0, List.mem_cons_self _ _, ?_, hlt, hf⟩
                simpa using hsuc
            · exact Or.inr ⟨u, st, lat, List.mem_cons_of_mem _ hmem, hrest⟩

theorem testLatencyGo_break_length (th : ℤ) (l : List (TestUrl × Outcome)) :
    ∀ (fa : Option Attempt) (acc : List Attempt) (i : ℕ)
      (u : TestUrl) (st lat : ℤ),
      l.get? i = some (u, Outcome.ok st lat) → lat < 100 →
      (∀ j u2 st2 lat2, j < i → l.get? j = some (u2, Outcome.ok st2 lat2) → 100 ≤ lat2) →
      (testLatencyGo th fa acc l).1.length = acc.length + i + 1 := by
  induction l with
  | nil =>
      intro fa acc i u st lat hget
      simp at hget
  | cons x rest ih =>
      intro fa acc i u st lat hget hlat hprev
      obtain ⟨u0, o0⟩ := x
      cases i with
      | zero =>
          rw [List.get?_cons_zero] at hget
          injection hget with hx
          rw [Prod.mk.injEq] at hx
          obtain ⟨hu, ho⟩ := hx
          subst hu
          subst ho
          simp only [testLatencyGo]
          rw [if_pos hlat]
          simp
      | succ n =>
          rw [List.get?_cons_succ] at hget
          have hprev2 : ∀ j u2 st2 lat2, j < n →
              rest.get? j = some (u2, Outcome.ok st2 lat2) → 100 ≤ lat2 := by
            intro j u2 st2 lat2 hj hg
            exact hprev (j + 1) u2 st2 lat2 (by omega) (by rwa [List.get?_cons_succ])
          cases o0 with
          | err =>
              simp only [testLatencyGo]
              rw [ih _ _ n u st lat hget hlat hprev2]
              simp
              omega
          | ok st0 lat0 =>
              have h0 : 100 ≤ lat0 :=
                hprev 0 u0 st0 lat0 (by omega) (by rw [List.get?_cons_zero])
              simp only [testLatencyGo]
              rw [if_neg (show ¬ lat0 < 100 by omega)]
              rw [ih _ _ n u st lat hget hlat hprev2]
              simp
              omega

end AggregatePreferredNode

namespace AggregatePreferredNode

/-! ### Helper lemmas about `get_geo_info` -/

theorem geoPhase2SG_cases (curIp : Option (List Char)) (call : GeoCall) :
    geoPhase2SG curIp call = unknownGeoSG ∨
    ∃ g, call = GeoCall.got 200 (GeoBody.obj g) ∧ g.status = some "success".data ∧
      pyTruthy curIp = true ∧
      geoPhase2SG curIp call = GeoInfoSG.mk (g.country.getD "Unknown".data)
        (g.city.getD "Unknown".data) (g.isp.getD "Unknown".data) (curIp.getD []) := by
  by_cases ht : pyTruthy curIp = true
  · cases call with
    | netErr =>
        left
        simp [geoPhase2SG, ht]
    | got st body =>
        by_cases hst : st = 200
        · subst hst
          cases body with
          | jsonErr =>
              left
              simp [geoPhase2SG, ht]
          | nonObject =>
              left
              simp [geoPhase2SG, ht]
          | obj g =>
              by_cases hs : g.status = some "success".data
              · right
                refine ⟨g, rfl, hs, ht, ?_⟩
                simp [geoPhase2SG, ht, hs]
              · left
                simp [geoPhase2SG, ht, hs]
        · left
          simp [geoPhase2SG, ht, hst]
  · left
    simp [geoPhase2SG, ht]

theorem geoPhase2NS_cases (curIp : Option (List Char)) (call : GeoCall) :
    geoPhase2NS curIp call = Except.ok unknownGeoNS ∨
    (∃ g, call = GeoCall.got 200 (GeoBody.obj g) ∧ g.status = some "success".data ∧
      pyTruthy curIp = true ∧
      geoPhase2NS curIp call = Except.ok (GeoInfoNS.mk (g.country.getD "Unknown".data)
        (g.city.getD "Unknown".data) (g.isp.getD "Unknown".data) g.lat g.lon (curIp.getD []))) ∨
    (geoPhase2NS curIp call = Except.error PyExc.attributeError ∧
      call = GeoCall.got 200 GeoBody.nonObject ∧ pyTruthy curIp = true) := by
  by_cases ht : pyTruthy curIp = true
  · cases call with
    | netErr =>
        left
        simp [geoPhase2NS, ht]
    | got st body =>
        by_cases hst : st = 200
        · subst hst
          cases body with
          | jsonErr =>
              left
              simp [geoPhase2NS, ht]
          | nonObject =>
              right
              right
              refine ⟨?_, rfl, ht⟩
              simp [geoPhase2NS, ht]
          | obj g =>
              by_cases hs : g.status = some "success".data
              · right
                left
                refine ⟨g, rfl, hs, ht, ?_⟩
                simp [geoPhase2NS, ht, hs]
              · left
                simp [geoPhase2NS, ht, hs]
        · left
          simp [geoPhase2NS, ht, hst]
  · left
    simp [geoPhase2NS, ht]

/-! ### Helper lemma about subscription parsing -/

theorem subLineNode_eq_some {parse : List Char → Option Node} {line : List Char} {n : Node}
    (h : subLineNode parse line = some n) :
    ∃ n0, parse (pyStrip line) = some n0 ∧
      n = Node.mk n0.original n0.type n0.parts (some Source.subscription) ∧
      (protoMarkers.any fun m => containsSub m (pyStrip line)) = true := by
  simp only [subLineNode] at h
  by_cases h1 : pyStrip line = []
  · rw [if_pos h1] at h
    cases h
  · rw [if_neg h1] at h
    by_cases h2 : (pyStrip line).head? = some '#'
    · rw [if_pos h2] at h
      cases h
    · rw [if_neg h2] at h
      by_cases h3 : (protoMarkers.any fun m => containsSub m (pyStrip line)) = true
      · rw [if_pos h3] at h
        cases hp : parse (pyStrip line) with
        | none =>
            rw [hp] at h
            cases h
        | some n0 =>
            rw [hp] at h
            injection h with h
            exact ⟨n0, rfl, h.symm, h3⟩
      · rw [if_neg h3] at h
        cases h

end AggregatePreferredNode

namespace AggregatePreferredNode

/-- Claim C1, counterexample: the claim asserts that for a probe outcome of
latency 45 ms with success and throughput 6000 KB/s, `calculate_score`
returns 97.0; the cited `SubscriptionGenerator.calculate_score` instead
returns 100.0 on exactly that input, so the claim as stated is false. -/
theorem claim_C1_counterexample :
    calculate_score_SG 45 6000 true = 100 ∧ calculate_score_SG 45 6000 true ≠ 97 := by
  constructor
  · norm_num [calculate_score_SG, latency_score_SG, speed_score_SG, pyRound1, roundHalfEven]
  · norm_num [calculate_score_SG, latency_score_SG, speed_score_SG, pyRound1, roundHalfEven]

/-- Claim C1, amended: the reference line parses to a descriptor with
protocol `ss` under all three parser variants; for latency 45 ms, success,
and throughput 6000 KB/s, `NodeSelector.calculate_score` (the variant using
the spec's reference table with weights 0.5/0.3/0.2) returns 97.0, while
`SubscriptionGenerator.calculate_score` (weights 0.6/0.4/0.2 normalised by
1.2 with coarser tables) returns 100.0. -/
theorem claim_C1 :
    (parse_node_line_SG ssExampleLine).map Node.type = some Protocol.ss ∧
    (parse_node_line_v1 ssExampleLine).map Node.type = some Protocol.ss ∧
    (parse_node_line_v2 ssExampleLine).map Node.type = some Protocol.ss ∧
    calculate_score_NS 45 6000 true = 97 ∧
    calculate_score_SG 45 6000 true = 100 := by
  refine ⟨by decide, by decide, by decide, ?_, ?_⟩
  · norm_num [calculate_score_NS, latency_score_NS, speed_score_NS, pyRound1, roundHalfEven]
  · norm_num [calculate_score_SG, latency_score_SG, speed_score_SG, pyRound1, roundHalfEven]

/-- Claim C2, counterexample: the claim asserts that every `parse_node_line`
attempts all eight grammars (ssr, vmess, trojan, vless, ss, http, socks5,
host:port).  The line `http://127.0.0.1:8080` matches the http grammar (as
the v2 parser shows), yet the `SubscriptionGenerator` parser returns `none`
for it; the line `vless://uuid@example.com:443` matches the vless grammar,
yet the v1 `NodeSelector` parser returns `none` for it. -/
theorem claim_C2_counterexample :
    parse_node_line_SG "http://127.0.0.1:8080".data = none ∧
    parse_node_line_v1 "vless://uuid@example.com:443".data = none ∧
    (parse_node_line_v2 "http://127.0.0.1:8080".data).map Node.type = some Protocol.http ∧
    (parse_node_line_v2 "vless://uuid@example.com:443".data).map Node.type
      = some Protocol.vless := by
  exact ⟨by decide, by decide, by decide, by decide⟩

/-- Claim C2, amended: each parser variant attempts its own fixed pattern
list in order and returns the descriptor of the first matching grammar, or
absence (`none`) when no grammar matches.  The v2 `NodeSelector` parser uses
exactly the claimed priority order ssr, vmess, trojan, vless, ss, http,
socks5, host:port; the `SubscriptionGenerator` parser attempts only the
first five grammars of that order; the v1 `NodeSelector` parser attempts the
claimed order with vless removed. -/
theorem claim_C2 :
    patterns_v2 = claimedPatterns ∧
    patterns_SG = claimedPatterns.take 5 ∧
    patterns_v1 = claimedPatterns.eraseIdx 3 ∧
    (∀ line, parse_node_line_v2 line = none ↔
      ∀ p ∈ patterns_v2, runPat p.2 (pyStrip line) = none) ∧
    (∀ line, parse_node_line_SG line = none ↔
      ∀ p ∈ patterns_SG, runPat p.2 (pyStrip line) = none) ∧
    (∀ line, parse_node_line_v1 line = none ↔
      ∀ p ∈ patterns_v1, runPat p.2 (pyStrip line) = none) ∧
    (∀ line ps₁ pr k ps₂ g, patterns_v2 = ps₁ ++ (pr, k) :: ps₂ →
      (∀ q ∈ ps₁, runPat q.2 (pyStrip line) = none) →
      runPat k (pyStrip line) = some g →
      parse_node_line_v2 line = some (Node.mk (pyStrip line) pr g none)) ∧
    (∀ line ps₁ pr k ps₂ g, patterns_SG = ps₁ ++ (pr, k) :: ps₂ →
      (∀ q ∈ ps₁, runPat q.2 (pyStrip line) = none) →
      runPat k (pyStrip line) = some g →
      parse_node_line_SG line = some (Node.mk (pyStrip line) pr g none)) ∧
    (∀ line ps₁ pr k ps₂ g, patterns_v1 = ps₁ ++ (pr, k) :: ps₂ →
      (∀ q ∈ ps₁, runPat q.2 (pyStrip line) = none) →
      runPat k (pyStrip line) = some g →
      parse_node_line_v1 line = some (Node.mk (pyStrip line) pr g none)) := by
  refine ⟨rfl, rfl, rfl, ?_, ?_, ?_, ?_, ?_, ?_⟩
  · intro line
    exact firstMatch_eq_none_iff _ _
  · intro line
    exact firstMatch_eq_none_iff _ _
  · intro line
    exact firstMatch_eq_none_iff _ _
  · intro line ps₁ pr k ps₂ g he h1 h2
    unfold parse_node_line_v2
    rw [he]
    exact firstMatch_append _ _ _ _ _ _ h1 h2
  · intro line ps₁ pr k ps₂ g he h1 h2
    unfold parse_node_line_SG
    rw [he]
    exact firstMatch_append _ _ _ _ _ _ h1 h2
  · intro line ps₁ pr k ps₂ g he h1 h2
    unfold parse_node_line_v1
    rw [he]
    exact firstMatch_append _ _ _ _ _ _ h1 h2

/-- Claim C2, witness: the first-match-wins statement instantiated at the
concrete line `ss://YWJj`, whose first four grammars fail and whose ss
grammar matches with capture `YWJj`. -/
theorem claim_C2_witness :
    parse_node_line_v2 "ss://YWJj".data =
      some (Node.mk (pyStrip "ss://YWJj".data) Protocol.ss ["YWJj".data] none) :=
  claim_C2.2.2.2.2.2.2.1 "ss://YWJj".data
    [(Protocol.ssr, PatKind.b64 "ssr://".data),
     (Protocol.vmess, PatKind.b64 "vmess://".data),
     (Protocol.trojan, PatKind.userHostPort "trojan://".data),
     (Protocol.vless, PatKind.userHostPort "vless://".data)]
    Protocol.ss (PatKind.b64 "ss://".data)
    [(Protocol.http, PatKind.protoHostPort "http://".data),
     (Protocol.socks5, PatKind.protoHostPort "socks5://".data),
     (Protocol.hostPort, PatKind.bareHostPort)]
    ["YWJj".data] rfl (by decide) (by decide)

/-- Claim C3: for every integer latency, every speed and every success flag,
both `calculate_score` variants return a rational in [0, 100] that is a
multiple of one tenth (i.e. rounded to one decimal place), and the maximum
score 100 is attained (at latency 40 ms, speed 20000 KB/s, success). -/
theorem claim_C3 :
    (∀ (l s : ℤ) (suc : Bool),
      0 ≤ calculate_score_NS l s suc ∧ calculate_score_NS l s suc ≤ 100 ∧
      ∃ k : ℤ, calculate_score_NS l s suc = (k : ℚ) / 10) ∧
    (∀ (l s : ℤ) (suc : Bool),
      0 ≤ calculate_score_SG l s suc ∧ calculate_score_SG l s suc ≤ 100 ∧
      ∃ k : ℤ, calculate_score_SG l s suc = (k : ℚ) / 10) ∧
    calculate_score_NS 40 20000 true = 100 ∧
    calculate_score_SG 40 20000 true = 100 := by
  refine ⟨?_, ?_, ?_, ?_⟩
  · intro l s suc
    exact ⟨(calculate_score_NS_bounds l s suc).1, (calculate_score_NS_bounds l s suc).2,
      calculate_score_NS_onedecimal l s suc⟩
  · intro l s suc
    exact ⟨(calculate_score_SG_bounds l s suc).1, (calculate_score_SG_bounds l s suc).2,
      calculate_score_SG_onedecimal l s suc⟩
  · norm_num [calculate_score_NS, latency_score_NS, speed_score_NS, pyRound1, roundHalfEven]
  · norm_num [calculate_score_SG, latency_score_SG, speed_score_SG, pyRound1, roundHalfEven]

/-- Claim C4: both `calculate_score` variants are monotone in each probe
signal — for fixed speed and success, decreasing a positive latency never
decreases the score, and for fixed positive latency and success, increasing
a non-negative speed never decreases the score. -/
theorem claim_C4 :
    (∀ (l₁ l₂ s : ℤ) (suc : Bool), 0 < l₁ → l₁ ≤ l₂ →
      calculate_score_NS l₂ s suc ≤ calculate_score_NS l₁ s suc) ∧
    (∀ (l s₁ s₂ : ℤ) (suc : Bool), 0 < l → 0 ≤ s₁ → s₁ ≤ s₂ →
      calculate_score_NS l s₁ suc ≤ calculate_score_NS l s₂ suc) ∧
    (∀ (l₁ l₂ s : ℤ) (suc : Bool), 0 < l₁ → l₁ ≤ l₂ →
      calculate_score_SG l₂ s suc ≤ calculate_score_SG l₁ s suc) ∧
    (∀ (l s₁ s₂ : ℤ) (suc : Bool), 0 < l → 0 ≤ s₁ → s₁ ≤ s₂ →
      calculate_score_SG l s₁ suc ≤ calculate_score_SG l s₂ suc) :=
  ⟨fun _ _ s suc h1 h2 => calculate_score_NS_latency_anti s suc h1 h2,
   fun l _ _ suc h1 h2 h3 => calculate_score_NS_speed_mono l suc h1 h2 h3,
   fun _ _ s suc h1 h2 => calculate_score_SG_latency_anti s suc h1 h2,
   fun l _ _ suc h1 h2 h3 => calculate_score_SG_speed_mono l suc h1 h2 h3⟩

/-- Claim C4, witness: the monotonicity statements instantiated at concrete
inputs 45 ms versus 150 ms and 500 KB/s versus 6000 KB/s. -/
theorem claim_C4_witness :
    calculate_score_NS 150 6000 true ≤ calculate_score_NS 45 6000 true ∧
    calculate_score_NS 45 500 true ≤ calculate_score_NS 45 6000 true ∧
    calculate_score_SG 150 6000 true ≤ calculate_score_SG 45 6000 true ∧
    calculate_score_SG 45 500 true ≤ calculate_score_SG 45 6000 true :=
  ⟨claim_C4.1 45 150 6000 true (by norm_num) (by norm_num),
   claim_C4.2.1 45 500 6000 true (by norm_num) (by norm_num) (by norm_num),
   claim_C4.2.2.1 45 150 6000 true (by norm_num) (by norm_num),
   claim_C4.2.2.2 45 500 6000 true (by norm_num) (by norm_num) (by norm_num)⟩

end AggregatePreferredNode

namespace AggregatePreferredNode

/-- Claim C5: deduplication keyed by the raw line is order-preserving and
idempotent — the output is a subsequence of the input, its raw lines are
pairwise distinct, a raw line occurs in the output iff it occurs in the
input, every kept node is the first input node carrying its raw line, an
input whose raw lines are already pairwise distinct is returned unchanged,
and deduplicating twice equals deduplicating once. -/
theorem claim_C5 (l : List Node) :
    List.Sublist (dedup_by_original l) l ∧
    ((dedup_by_original l).map Node.original).Nodup ∧
    (∀ r, r ∈ (dedup_by_original l).map Node.original ↔ r ∈ l.map Node.original) ∧
    (∀ n ∈ dedup_by_original l,
      l.find? (fun m => decide (m.original = n.original)) = some n) ∧
    ((l.map Node.original).Nodup → dedup_by_original l = l) ∧
    dedup_by_original (dedup_by_original l) = dedup_by_original l := by
  refine ⟨dedupNodes_sublist [] l, dedupNodes_nodup [] l, ?_, ?_, ?_, ?_⟩
  · intro r
    rw [dedup_by_original, dedupNodes_mem_original]
    simp
  · intro n hn
    exact dedupNodes_find [] l n hn
  · intro hd
    exact dedupNodes_of_nodup [] l hd (by simp)
  · exact dedupNodes_of_nodup [] _ (dedupNodes_nodup [] l) (by simp)

/-- Claim C5, witness: the first-representative and unchanged-input
statements instantiated on concrete three- and two-node lists. -/
theorem claim_C5_witness :
    [Node.mk "ss://YWJj".data Protocol.ss ["YWJj".data] none,
     Node.mk "vmess://Zm9v".data Protocol.vmess ["Zm9v".data] none,
     Node.mk "ss://YWJj".data Protocol.ss ["YWJj".data] none].find?
        (fun m => decide (m.original =
          (Node.mk "ss://YWJj".data Protocol.ss ["YWJj".data] none).original))
      = some (Node.mk "ss://YWJj".data Protocol.ss ["YWJj".data] none) ∧
    dedup_by_original
        [Node.mk "ss://YWJj".data Protocol.ss ["YWJj".data] none,
         Node.mk "vmess://Zm9v".data Protocol.vmess ["Zm9v".data] none]
      = [Node.mk "ss://YWJj".data Protocol.ss ["YWJj".data] none,
         Node.mk "vmess://Zm9v".data Protocol.vmess ["Zm9v".data] none] :=
  ⟨(claim_C5 [Node.mk "ss://YWJj".data Protocol.ss ["YWJj".data] none,
      Node.mk "vmess://Zm9v".data Protocol.vmess ["Zm9v".data] none,
      Node.mk "ss://YWJj".data Protocol.ss ["YWJj".data] none]).2.2.2.1
      (Node.mk "ss://YWJj".data Protocol.ss ["YWJj".data] none) (by decide),
   (claim_C5 [Node.mk "ss://YWJj".data Protocol.ss ["YWJj".data] none,
      Node.mk "vmess://Zm9v".data Protocol.vmess ["Zm9v".data] none]).2.2.2.2.1 (by decide)⟩

/-- Claim C6: the latency protocol early-exits on a fast response — if the
i-th probed endpoint produces a measured (non-exception) latency below
100 ms and no earlier endpoint did, exactly i+1 attempts are recorded, i.e.
no further endpoint is attempted. -/
theorem claim_C6 (th : ℤ) (urls : List TestUrl) (outcomes : List Outcome) (i : ℕ)
    (u : TestUrl) (st lat : ℤ)
    (hget : (urls.zip outcomes).get? i = some (u, Outcome.ok st lat))
    (hlat : lat < 100)
    (hprev : ∀ j u2 st2 lat2, j < i →
      (urls.zip outcomes).get? j = some (u2, Outcome.ok st2 lat2) → 100 ≤ lat2) :
    (test_latency th urls outcomes).all_results.length = i + 1 := by
  have h := testLatencyGo_break_length th (urls.zip outcomes) none [] i u st lat hget hlat hprev
  have h2 : (test_latency th urls outcomes).all_results
      = (testLatencyGo th none [] (urls.zip outcomes)).1 := rfl
  rw [h2, h]
  simp

/-- Claim C6, witness: with the `SubscriptionGenerator` endpoint table and a
first endpoint returning status 204 at 80 ms, exactly one attempt is
recorded even though a second endpoint outcome is available. -/
theorem claim_C6_witness :
    (test_latency 3000 test_urls_SG [Outcome.ok 204 80, Outcome.ok 200 50]).all_results.length
      = 1 :=
  claim_C6 3000 test_urls_SG [Outcome.ok 204 80, Outcome.ok 200 50] 0
    (TestUrl.mk "Google Static".data 204 1) 204 80 (by decide) (by decide)
    (fun j _ _ _ hj _ => absurd hj (Nat.not_lt_zero j))

/-- Claim C9: whenever the latency protocol reports a fastest success, that
attempt was produced by one of the configured endpoints, its status equals
that endpoint's expected status (its success flag is set), and its latency
is strictly below the configured threshold; consequently the speed-test gate
`latency < latency_threshold` of `test_single_node` always agrees with
`passed`, so the throughput protocol runs for every node that passes the
latency protocol. -/
theorem claim_C9 :
    (∀ (th : ℤ) (urls : List TestUrl) (outcomes : List Outcome) (f : Attempt),
      (test_latency th urls outcomes).fastest_success = some f →
      f.success = true ∧ f.latency < th ∧
      ∃ u, u ∈ urls ∧ f.url = u.name ∧ f.status = u.expected_status ∧ f.weight = u.weight) ∧
    (∀ (th : ℤ) (urls : List TestUrl) (outcomes : List Outcome),
      speed_test_invoked th (test_latency th urls outcomes)
        = (test_latency th urls outcomes).passed) := by
  constructor
  · intro th urls outcomes f hf
    have h2 : (test_latency th urls outcomes).fastest_success
        = (testLatencyGo th none [] (urls.zip outcomes)).2 := rfl
    rw [h2] at hf
    rcases testLatencyGo_fastest_inv th (urls.zip outcomes) none [] f hf with
      hfa | ⟨u, st, lat, hmem, hst, hlt, hf2⟩
    · exact Option.noConfusion hfa
    · subst hf2
      exact ⟨by simp [hst], hlt, u, (List.of_mem_zip hmem).1, rfl, hst, rfl⟩
  · intro th urls outcomes
    have hrep : test_latency th urls outcomes
        = LatencyReport.mk (testLatencyGo th none [] (urls.zip outcomes)).2
            (testLatencyGo th none [] (urls.zip outcomes)).1
            (testLatencyGo th none [] (urls.zip outcomes)).2.isSome := rfl
    cases hfs : (testLatencyGo th none [] (urls.zip outcomes)).2 with
    | none =>
        rw [hrep, hfs]
        simp [speed_test_invoked]
    | some f =>
        rcases testLatencyGo_fastest_inv th (urls.zip outcomes) none [] f hfs with
          hfa | ⟨u, st, lat, hmem, hst, hlt, hf2⟩
        · exact Option.noConfusion hfa
        · rw [hrep, hfs]
          subst hf2
          simp [speed_test_invoked, hlt]

/-- Claim C9, witness: with the `NodeSelector` endpoint table, threshold
3000 ms and a single probe outcome of status 204 at 150 ms, the recorded
fastest success has its success flag set, latency below the threshold, and
stems from the first configured endpoint. -/
theorem claim_C9_witness :
    (Attempt.mk "Google Static".data 150 204 true 1).success = true ∧
    (Attempt.mk "Google Static".data 150 204 true 1).latency < 3000 ∧
    ∃ u, u ∈ test_urls_NS ∧
      (Attempt.mk "Google Static".data 150 204 true 1).url = u.name ∧
      (Attempt.mk "Google Static".data 150 204 true 1).status = u.expected_status ∧
      (Attempt.mk "Google Static".data 150 204 true 1).weight = u.weight :=
  claim_C9.1 3000 test_urls_NS [Outcome.ok 204 150]
    (Attempt.mk "Google Static".data 150 204 true 1) (by decide)

end AggregatePreferredNode

namespace AggregatePreferredNode

/-- Claim C7, counterexample: the claim asserts `get_geo_info` never raises
to its caller for any outcome of its network calls, including a malformed
body.  `NodeSelector.get_geo_info` catches only `requests.RequestException`,
so on a 200 response whose JSON body is a non-object value it raises
`AttributeError` at `ip_data.get` (and likewise at `geo_data.get` in the
lookup step), reaching its caller instead of returning a record. -/
theorem claim_C7_counterexample :
    get_geo_info_NS (GeoEnv.mk (IpCall.got 200 IpBody.nonObject) GeoCall.netErr)
      = Except.error PyExc.attributeError ∧
    get_geo_info_NS (GeoEnv.mk (IpCall.got 200 (IpBody.obj (OriginField.str "1.2.3.4".data)))
        (GeoCall.got 200 GeoBody.nonObject))
      = Except.error PyExc.attributeError := by
  exact ⟨rfl, rfl⟩

/-- Claim C7, amended: `SubscriptionGenerator.get_geo_info` never raises —
its bare `except` catches every failure, and for every outcome of its
network calls it returns either the all-"Unknown" fallback or, only on a
fully successful lookup (HTTP 200, object body, lookup status "success",
truthy IP), the filled record.  `NodeSelector.get_geo_info` catches only
`requests.RequestException`: on a 200 response whose JSON body is a
non-object value, or whose `origin` value is not a string, it raises
`AttributeError` to its caller; on every other outcome it likewise returns
the all-"Unknown" fallback or the fully-successful record. -/
theorem claim_C7 (ip : Option (List Char)) (env : GeoEnv) :
    (get_geo_info_SG ip env = unknownGeoSG ∨
      ∃ g used, env.geoCall = GeoCall.got 200 (GeoBody.obj g) ∧
        g.status = some "success".data ∧ pyTruthy used = true ∧
        get_geo_info_SG ip env = GeoInfoSG.mk (g.country.getD "Unknown".data)
          (g.city.getD "Unknown".data) (g.isp.getD "Unknown".data) (used.getD [])) ∧
    (get_geo_info_NS env = Except.ok unknownGeoNS ∨
      (∃ g used, env.geoCall = GeoCall.got 200 (GeoBody.obj g) ∧
        g.status = some "success".data ∧ pyTruthy used = true ∧
        get_geo_info_NS env = Except.ok (GeoInfoNS.mk (g.country.getD "Unknown".data)
          (g.city.getD "Unknown".data) (g.isp.getD "Unknown".data)
          g.lat g.lon (used.getD []))) ∨
      (get_geo_info_NS env = Except.error PyExc.attributeError ∧
        (env.ipCall = IpCall.got 200 IpBody.nonObject ∨
         env.ipCall = IpCall.got 200 (IpBody.obj OriginField.nonStr) ∨
         env.geoCall = GeoCall.got 200 GeoBody.nonObject))) := by
  obtain ⟨ipc, geoc⟩ := env
  constructor
  · by_cases ht : pyTruthy ip = true
    · have h : get_geo_info_SG ip (GeoEnv.mk ipc geoc) = geoPhase2SG ip geoc := by
        simp [get_geo_info_SG, ht]
      rw [h]
      rcases geoPhase2SG_cases ip geoc with h2 | ⟨g, hcall, hs, htr, heq⟩
      · exact Or.inl h2
      · exact Or.inr ⟨g, ip, hcall, hs, htr, heq⟩
    · cases ipc with
      | netErr =>
          left
          simp [get_geo_info_SG, ht]
      | got st body =>
          by_cases hst : st = 200
          · subst hst
            cases body with
            | jsonErr =>
                left
                simp [get_geo_info_SG, ht]
            | nonObject =>
                left
                simp [get_geo_info_SG, ht]
            | obj origin =>
                cases origin with
                | missing =>
                    left
                    have h : get_geo_info_SG ip
                        (GeoEnv.mk (IpCall.got 200 (IpBody.obj OriginField.missing)) geoc)
                        = geoPhase2SG (some []) geoc := by
                      simp [get_geo_info_SG, ht]
                    rw [h]
                    simp [geoPhase2SG, pyTruthy]
                | str s =>
                    have h : get_geo_info_SG ip
                        (GeoEnv.mk (IpCall.got 200 (IpBody.obj (OriginField.str s))) geoc)
                        = geoPhase2SG (some (s.takeWhile (fun c => c != ','))) geoc := by
                      simp [get_geo_info_SG, ht]
                    rw [h]
                    rcases geoPhase2SG_cases (some (s.takeWhile (fun c => c != ','))) geoc with
                      h2 | ⟨g, hcall, hs, htr, heq⟩
                    · exact Or.inl h2
                    · exact Or.inr
                        ⟨g, some (s.takeWhile (fun c => c != ',')), hcall, hs, htr, heq⟩
                | nonStr =>
                    left
                    simp [get_geo_info_SG, ht]
          · have h : get_geo_info_SG ip (GeoEnv.mk (IpCall.got st body) geoc)
                = geoPhase2SG ip geoc := by
              simp [get_geo_info_SG, ht, hst]
            rw [h]
            rcases geoPhase2SG_cases ip geoc with h2 | ⟨g, hcall, hs, htr, heq⟩
            · exact Or.inl h2
            · exact absurd htr ht
  · cases ipc with
    | netErr =>
        left
        simp [get_geo_info_NS]
    | got st body =>
        by_cases hst : st = 200
        · subst hst
          cases body with
          | jsonErr =>
              left
              simp [get_geo_info_NS]
          | nonObject =>
              right
              right
              refine ⟨?_, Or.inl rfl⟩
              simp [get_geo_info_NS]
          | obj origin =>
              cases origin with
              | missing =>
                  left
                  have h : get_geo_info_NS
                      (GeoEnv.mk (IpCall.got 200 (IpBody.obj OriginField.missing)) geoc)
                      = geoPhase2NS (some []) geoc := by
                    simp [get_geo_info_NS]
                  rw [h]
                  simp [geoPhase2NS, pyTruthy]
              | str s =>
                  have h : get_geo_info_NS
                      (GeoEnv.mk (IpCall.got 200 (IpBody.obj (OriginField.str s))) geoc)
                      = geoPhase2NS (some (s.takeWhile (fun c => c != ','))) geoc := by
                    simp [get_geo_info_NS]
                  rw [h]
                  rcases geoPhase2NS_cases (some (s.takeWhile (fun c => c != ','))) geoc with
                    h2 | ⟨g, hcall, hs, htr, heq⟩ | ⟨herr, hcall, htr⟩
                  · exact Or.inl h2
                  · exact Or.inr (Or.inl
                      ⟨g, some (s.takeWhile (fun c => c != ',')), hcall, hs, htr, heq⟩)
                  · exact Or.inr (Or.inr ⟨herr, Or.inr (Or.inr hcall)⟩)
              | nonStr =>
                  right
                  right
                  refine ⟨?_, Or.inr (Or.inl rfl)⟩
                  simp [get_geo_info_NS]
        · left
          simp [get_geo_info_NS, hst]

/-- Claim C8: the subscription-artifact selection emits only nodes with the
success flag set, score strictly above the quality cutoff 30 and speed
strictly above the floor 100; it emits at most top-N nodes; the output
followed by the rest of the filtered list reconstitutes the filtered list
(i.e. the output is a prefix of it); and when the input is sorted by
descending score, so are the filtered list and the output. -/
theorem claim_C8 (top_n : ℕ) (results : List NodeResult) :
    (∀ r ∈ select_subscription_nodes top_n results,
      r.success = true ∧ (30 : ℚ) < r.score ∧ (100 : ℤ) < r.speed) ∧
    (select_subscription_nodes top_n results).length ≤ top_n ∧
    select_subscription_nodes top_n results ++ (filter_valid_SG results).drop top_n
      = filter_valid_SG results ∧
    (results.Sorted (fun a b => b.score ≤ a.score) →
      (filter_valid_SG results).Sorted (fun a b => b.score ≤ a.score) ∧
      (select_subscription_nodes top_n results).Sorted (fun a b => b.score ≤ a.score)) := by
  refine ⟨?_, ?_, ?_, ?_⟩
  · intro r hr
    have hr2 : r ∈ filter_valid_SG results := List.take_subset _ _ hr
    unfold filter_valid_SG at hr2
    rw [List.mem_filter] at hr2
    have hb := hr2.2
    simp only [Bool.and_eq_true, decide_eq_true_eq] at hb
    exact ⟨hb.1.1, hb.1.2, hb.2⟩
  · exact List.length_take_le _ _
  · exact List.take_append_drop _ _
  · intro hs
    have h1 : (filter_valid_SG results).Sorted (fun a b => b.score ≤ a.score) :=
      List.Pairwise.filter _ hs
    exact ⟨h1, List.Pairwise.sublist (List.take_sublist _ _) h1⟩

/-- Claim C8, witness: selection from a concrete sorted three-node list with
top-N = 1, where the third node fails the quality filter. -/
theorem claim_C8_witness :
    ((NodeResult.mk "a".data Protocol.ss 45 6000 "US".data "I".data 97 true none).success = true ∧
      (30 : ℚ) < (NodeResult.mk "a".data Protocol.ss 45 6000 "US".data "I".data 97 true none).score ∧
      (100 : ℤ) < (NodeResult.mk "a".data Protocol.ss 45 6000 "US".data "I".data 97 true none).speed) ∧
    (select_subscription_nodes 1
      [NodeResult.mk "a".data Protocol.ss 45 6000 "US".data "I".data 97 true none,
       NodeResult.mk "b".data Protocol.vmess 150 300 "DE".data "I".data 50 true none,
       NodeResult.mk "c".data Protocol.trojan 900 0 "FR".data "I".data 20 false none]).Sorted
      (fun a b => b.score ≤ a.score) :=
  ⟨(claim_C8 1
      [NodeResult.mk "a".data Protocol.ss 45 6000 "US".data "I".data 97 true none,
       NodeResult.mk "b".data Protocol.vmess 150 300 "DE".data "I".data 50 true none,
       NodeResult.mk "c".data Protocol.trojan 900 0 "FR".data "I".data 20 false none]).1
      (NodeResult.mk "a".data Protocol.ss 45 6000 "US".data "I".data 97 true none) (by decide),
   ((claim_C8 1
      [NodeResult.mk "a".data Protocol.ss 45 6000 "US".data "I".data 97 true none,
       NodeResult.mk "b".data Protocol.vmess 150 300 "DE".data "I".data 50 true none,
       NodeResult.mk "c".data Protocol.trojan 900 0 "FR".data "I".data 20 false none]).2.2.2
      (by decide)).2⟩

/-- Claim C10, counterexample: the claim asserts every descriptor returned
by `parse_subscription_content` has a protocol tag among ssr, vmess, trojan,
vless, ss.  The subscription line `http://example.com:80/ss://x` contains
the substring `ss://`, passes the marker filter, and is then parsed by the
v2 `NodeSelector` grammar chain as an http descriptor. -/
theorem claim_C10_counterexample :
    (parse_subscription_content_v2 "http://example.com:80/ss://x".data).map Node.type
      = [Protocol.http] := by
  decide

/-- Claim C10, amended: every descriptor returned by
`parse_subscription_content` comes from a line containing one of the
substrings ss://, ssr://, vmess://, trojan://, vless:// and is tagged with
source `subscription`; in the `SubscriptionGenerator` variant the protocol
tag is moreover always among ssr, vmess, trojan, vless, ss, while in the v2
`NodeSelector` variant a marker-containing line may still be parsed by the
http, socks5 or host:port grammar. -/
theorem claim_C10 :
    (∀ content n, n ∈ parse_subscription_content_SG content →
      (n.type = Protocol.ssr ∨ n.type = Protocol.vmess ∨ n.type = Protocol.trojan ∨
        n.type = Protocol.vless ∨ n.type = Protocol.ss) ∧
      (∃ m ∈ protoMarkers, containsSub m n.original = true) ∧
      n.source = some Source.subscription) ∧
    (∀ content n, n ∈ parse_subscription_content_v2 content →
      (∃ m ∈ protoMarkers, containsSub m n.original = true) ∧
      n.source = some Source.subscription) := by
  constructor
  · intro content n hn
    unfold parse_subscription_content_SG at hn
    rw [List.mem_filterMap] at hn
    obtain ⟨line, hline, hsub⟩ := hn
    obtain ⟨n0, hp, hn0, hmark⟩ := subLineNode_eq_some hsub
    unfold parse_node_line_SG at hp
    obtain ⟨horig, hsrc, htype⟩ := firstMatch_shape hp
    rw [pyStrip_idem] at horig
    subst hn0
    refine ⟨?_, ?_, rfl⟩
    · simpa [patterns_SG] using htype
    · rw [List.any_eq_true] at hmark
      obtain ⟨m, hm, hc⟩ := hmark
      refine ⟨m, hm, ?_⟩
      show containsSub m n0.original = true
      rw [horig]
      exact hc
  · intro content n hn
    unfold parse_subscription_content_v2 at hn
    rw [List.mem_filterMap] at hn
    obtain ⟨line, hline, hsub⟩ := hn
    obtain ⟨n0, hp, hn0, hmark⟩ := subLineNode_eq_some hsub
    unfold parse_node_line_v2 at hp
    obtain ⟨horig, hsrc, htype⟩ := firstMatch_shape hp
    rw [pyStrip_idem] at horig
    subst hn0
    refine ⟨?_, rfl⟩
    rw [List.any_eq_true] at hmark
    obtain ⟨m, hm, hc⟩ := hmark
    refine ⟨m, hm, ?_⟩
    show containsSub m n0.original = true
    rw [horig]
    exact hc

/-- Claim C10, witness: the subscription payload `ss://YWJj` yields exactly
one descriptor, whose tag is among the five subscription protocols, whose
line contains a protocol marker, and whose source is `subscription`. -/
theorem claim_C10_witness :
    ((Node.mk "ss://YWJj".data Protocol.ss ["YWJj".data] (some Source.subscription)).type
        = Protocol.ssr ∨
      (Node.mk "ss://YWJj".data Protocol.ss ["YWJj".data] (some Source.subscription)).type
        = Protocol.vmess ∨
      (Node.mk "ss://YWJj".data Protocol.ss ["YWJj".data] (some Source.subscription)).type
        = Protocol.trojan ∨
      (Node.mk "ss://YWJj".data Protocol.ss ["YWJj".data] (some Source.subscription)).type
        = Protocol.vless ∨
      (Node.mk "ss://YWJj".data Protocol.ss ["YWJj".data] (some Source.subscription)).type
        = Protocol.ss) ∧
    (∃ m ∈ protoMarkers, containsSub m
      (Node.mk "ss://YWJj".data Protocol.ss ["YWJj".data] (some Source.subscription)).original
        = true) ∧
    (Node.mk "ss://YWJj".data Protocol.ss ["YWJj".data] (some Source.subscription)).source
      = some Source.subscription :=
  claim_C10.1 "ss://YWJj".data
    (Node.mk "ss://YWJj".data Protocol.ss ["YWJj".data] (some Source.subscription)) (by decide)

end AggregatePreferredNode
